import Mathlib

/-!
Shallow embedding of `slack_utils/slack.py` (message purge utilities for a
chat service) and verification of its specification.

Modelling conventions:
* Slack API responses are values of explicit structures; the remote service
  is a function from the request parameters that vary inside a loop to a
  response, universally quantified in every theorem.
* Python `dict` headers are association lists (`List (String × String)`);
  `dict.get` is `headers_get`, key membership is `has_retry_after`.
* Python timestamps (floats of seconds) are modelled as rationals `ℚ`; the
  `str`/`float` round trip of the pagination cursor is modelled by parsing
  the decimal string of a message id into a rational (`py_float`).  No claim
  depends on float rounding, and the next page is produced by the
  universally quantified history function.
* A Python `set` of message ids is a `Finset String` in the collector and a
  duplicate-free `List String` (iteration order) in the deleter, where
  `set.remove` raising `KeyError` on an absent element is modelled exactly.
* Exceptions (`raise`, `ValueError` from `int()`/`float()`, `KeyError`)
  are modelled by `Except String`.
* `int(s)` on a string is `py_int` (`none` = `ValueError`); Python
  truthiness of an optional string (`x or y`) is `py_or_str`.
-/

namespace SlackUtils

/-- Message of a history page: `ts` and `type` are always present in a Slack
message dict; the `subtype` key may be absent, modelled by `Option`. -/
structure Msg where
  ts : String
  type : String
  subtype : Option String
deriving DecidableEq, Repr

/-- Response of the `conversations.history` call. -/
structure HistoryResponse where
  ok : Bool
  error : String := ""
  messages : List Msg := []
deriving DecidableEq, Repr

/-- Response of the `chat.delete` call, with the response headers that may
carry a `Retry-After` rate-limit signal. -/
structure DeleteResponse where
  ok : Bool
  error : String := ""
  headers : List (String × String) := []
deriving DecidableEq, Repr

/-- Source: `retry_after_text = ['Retry-After', 'retry-after']`. -/
def retry_after_text : List String := ["Retry-After", "retry-after"]

/-- Python `headers.get(key)` on the headers dict. -/
def headers_get (headers : List (String × String)) (key : String) : Option String :=
  (headers.find? (fun p => p.1 = key)).map (fun p => p.2)

/-- Source line 153: `any(it in headers.keys() for it in retry_after_text)`. -/
def has_retry_after (headers : List (String × String)) : Bool :=
  retry_after_text.any (fun it => (headers.find? (fun p => p.1 = it)).isSome)

/-- Python `a or b` for optional strings: `None` and the empty string are
falsy. -/
def py_or_str (a b : Option String) : Option String :=
  match a with
  | some s => if s = "" then b else some s
  | none => b

/-- Whitespace characters that Python `int()`/`float()` strip from a string
argument. -/
def py_space (c : Char) : Bool :=
  (c == ' ') || (c == '\t') || (c == '\n') || (c == '\r')

/-- Leading and trailing whitespace stripped from a character list. -/
def py_strip (l : List Char) : List Char :=
  ((l.dropWhile py_space).reverse.dropWhile py_space).reverse

/-- Value of a non-empty all-digit character list; `none` otherwise. -/
def py_digits (l : List Char) : Option Nat :=
  match l with
  | [] => none
  | _ =>
    l.foldl
      (fun acc c =>
        match acc with
        | none => none
        | some n => if c.isDigit then some (n * 10 + (c.toNat - 48)) else none)
      (some 0)

/-- Signed decimal integer literal over characters. -/
def py_int_chars (l : List Char) : Option Int :=
  match l with
  | '-' :: rest => (py_digits rest).map (fun n => -(n : Int))
  | '+' :: rest => (py_digits rest).map (fun n => (n : Int))
  | _ => (py_digits l).map (fun n => (n : Int))

/-- Python `int(s)` on a decimal string: `none` models the `ValueError`
raised on a non-numeric literal.  (Underscore separators of Python 3.6+
are not modelled; no claim involves them.) -/
def py_int (s : String) : Option Int :=
  py_int_chars (py_strip s.data)

/-- Source line 154: `int(headers.get('Retry-After') or headers.get('retry-after') or 2)`.
A missing or falsy (empty) value falls through to the literal `2`; a present
non-empty value is passed to `int`, whose failure is a `ValueError`. -/
def retry_after_value (headers : List (String × String)) : Except String Int :=
  match py_or_str (headers_get headers "Retry-After") (headers_get headers "retry-after") with
  | none => Except.ok 2
  | some s =>
    if s = "" then Except.ok 2
    else
      match py_int s with
      | some n => Except.ok n
      | none => Except.error ("ValueError: invalid literal for int: " ++ s)

/-- A failed delete response that carries the rate-limit header key
(source lines 151-153: `not res['ok']` and the `any(...)` key test). -/
def triggers_rate_limit (res : DeleteResponse) : Bool :=
  !res.ok && has_retry_after res.headers

/-- Loop body of `delete_channel_messages` (source lines 149-162): iterate the
given identifiers, tracking the `missing_messages` set and the deleted
counter.  `delApi ts` is the response of `chat.delete` for identifier `ts`.
`set.remove` on an absent element is the Python `KeyError`. -/
def delete_loop (delApi : String → DeleteResponse) :
    List String → List String → Nat → Except String (Option (List String × Int))
  | [], _missing, _n => Except.ok none
  | ts :: rest, missing, n =>
    if (delApi ts).ok then
      if ts ∈ missing then
        delete_loop delApi rest (missing.erase ts) (n + 1)
      else Except.error "KeyError"
    else
      if has_retry_after (delApi ts).headers then
        match retry_after_value (delApi ts).headers with
        | Except.ok w => Except.ok (some (missing, w))
        | Except.error e => Except.error e
      else
        if ts ∈ missing then
          delete_loop delApi rest (missing.erase ts) (n + 1)
        else Except.error "KeyError"

/-- Source `Slack.delete_channel_messages` (lines 134-164):
`missing_messages = set(messages)` is the deduplicated list; the loop walks
`messages` in iteration order.  Returns `ok none` for the terminal `None`,
`ok (some (pending, wait))` for the rate-limit pause, `error` for a raised
exception. -/
def delete_channel_messages (delApi : String → DeleteResponse) (messages : List String) :
    Except String (Option (List String × Int)) :=
  delete_loop delApi messages messages.dedup 0

/-- Source `timestamp_x_days_ago` (lines 14-19): `initial_date.shift(days=-days).timestamp()`
with `arrow.now()` (the `now` argument of the model) substituted when
`initial_date` is `None`.  A day is 86400 seconds. -/
def timestamp_x_days_ago (days : ℤ) (initial_date : Option ℚ) (now : ℚ) : ℚ :=
  (initial_date.getD now) - days * 86400

/-- Source line 83: the default substituted for an unset `min_days_old`. -/
def default_min_days_old : ℤ := 15

/-- Source lines 81-83: `if min_days_old is None: min_days_old = 15`; an
explicit `0` is kept. -/
def effective_min_days_old (min_days_old : Option ℤ) : ℤ :=
  match min_days_old with
  | none => default_min_days_old
  | some d => d

/-- Source lines 105-106: `if message_type: filter(lambda x: x['type'] == message_type, ...)`.
A `None` or empty (falsy) filter leaves the page unchanged. -/
def apply_type_filter (message_type : Option String) (msgs : List Msg) : List Msg :=
  match message_type with
  | none => msgs
  | some t => if t = "" then msgs else msgs.filter (fun x => x.type = t)

/-- Source line 109 lambda body: `x['subtype'] == message_subtype`, where a
message without a `subtype` key raises `KeyError` when the filter is forced
by `list(...)`. -/
def subtype_filter_go (st : String) : List Msg → Except String (List Msg)
  | [] => Except.ok []
  | m :: rest =>
    match m.subtype with
    | none => Except.error "KeyError: subtype"
    | some s =>
      match subtype_filter_go st rest with
      | Except.error e => Except.error e
      | Except.ok r => Except.ok (if s = st then m :: r else r)

/-- Source lines 108-109: `if message_subtype: list(filter(lambda x: x['subtype'] == message_subtype, ...))`
with falsy filters skipped. -/
def apply_subtype_filter (message_subtype : Option String) (msgs : List Msg) :
    Except String (List Msg) :=
  match message_subtype with
  | none => Except.ok msgs
  | some st => if st = "" then Except.ok msgs else subtype_filter_go st msgs

/-- Source line 114: `set([m['ts'] for m in new_messages])`. -/
def page_ts (msgs : List Msg) : Finset String :=
  (msgs.map Msg.ts).toFinset

/-- Python `min` over a set of strings: the lexicographically least element
(Python compares strings lexicographically). -/
def py_min_string (s : Finset String) : Option String :=
  (s.sort (fun a b => a ≤ b)).head?

/-- Character list split at every dot, for the decimal point of a float
literal. -/
def py_split_dot : List Char → List (List Char)
  | [] => [[]]
  | c :: rest =>
    if c = '.' then [] :: py_split_dot rest
    else
      match py_split_dot rest with
      | [] => [[c]]
      | h :: t => (c :: h) :: t

/-- Unsigned decimal float literal `digits` or `digits.digits` over
characters.  (Exponent forms and a bare trailing dot are not modelled; no
claim involves them, and the parsed cursor only feeds the universally
quantified history function.) -/
def py_float_chars (l : List Char) : Option ℚ :=
  match py_split_dot l with
  | [a] => (py_digits a).map (fun n => (n : ℚ))
  | [a, b] =>
    match py_digits a, py_digits b with
    | some n, some f => some ((n : ℚ) + (f : ℚ) / ((10 : ℚ) ^ b.length))
    | _, _ => none
  | _ => none

/-- Signed decimal float literal over characters. -/
def py_float_signed (l : List Char) : Option ℚ :=
  match l with
  | '-' :: rest => (py_float_chars rest).map (fun q => -q)
  | '+' :: rest => py_float_chars rest
  | _ => py_float_chars l

/-- Python `float(s)`: `none` models the `ValueError` on a malformed
literal. -/
def py_float (s : String) : Option ℚ :=
  py_float_signed (py_strip s.data)

/-- Source line 128: `minimum_timestamp = str(float(min(ts_new_messages)) - 0.000001)`.
The value is kept as the rational it denotes (the `str`/`float` round trip
does not change which request is made in the model). -/
def next_cursor (ts_new : Finset String) : Option ℚ :=
  match py_min_string ts_new with
  | none => none
  | some smin => (py_float smin).map (fun q => q - 1 / 1000000)

/-- Pagination loop of `load_messages_from_channel` (source lines 90-132).
`history latest` is the `conversations.history` response for the current
`latest` cursor (`oldest = 0`, `count = 1000` fixed); `fuel` is the number
of iterations still allowed by `while iterations < 10`; `ts_messages` is
the accumulated id set.  Exhausted fuel returns the accumulated set
(silent truncation); an `ok = false` response raises with the channel id
and the remote error text. -/
def load_loop (history : ℚ → HistoryResponse) (channel_id : String)
    (message_type message_subtype : Option String) :
    Nat → ℚ → Finset String → Except String (Finset String)
  | 0, _minimum_timestamp, ts_messages => Except.ok ts_messages
  | fuel + 1, minimum_timestamp, ts_messages =>
    if (history minimum_timestamp).ok then
      match apply_subtype_filter message_subtype
          (apply_type_filter message_type (history minimum_timestamp).messages) with
      | Except.error e => Except.error e
      | Except.ok new_messages =>
        if page_ts new_messages = ∅ ∨ page_ts new_messages ⊆ ts_messages then
          Except.ok ts_messages
        else
          match next_cursor (page_ts new_messages) with
          | some q =>
            load_loop history channel_id message_type message_subtype fuel q
              (ts_messages ∪ page_ts new_messages)
          | none => Except.error "ValueError: could not convert string to float"
    else
      Except.error ("Error loading messages from channel " ++ channel_id ++ ": "
        ++ (history minimum_timestamp).error)

/-- Source `Slack.load_messages_from_channel` (lines 68-132): substitute the
default for an unset age, compute the cutoff from `now`, and run the
pagination loop with 10 iterations and an empty accumulator. -/
def load_messages_from_channel (history : ℚ → HistoryResponse) (channel_id : String)
    (now : ℚ) (min_days_old : Option ℤ) (message_type message_subtype : Option String) :
    Except String (Finset String) :=
  load_loop history channel_id message_type message_subtype 10
    (timestamp_x_days_ago (effective_min_days_old min_days_old) none now) ∅

/-- Rule of the configuration (source docstring lines 170-177): a channel
name, possibly with a leading marker, and a minimum age in days.  The
`int(rule['days'])` conversion of the configuration string is modelled by
taking the age already as an integer. -/
structure Rule where
  channel : String
  days : ℤ
deriving DecidableEq, Repr

/-- Rule after `map_channels_to_their_id` filled in the resolved id
(source line 64 mutates the rule dict in place). -/
structure RuleWithId where
  channel : String
  days : ℤ
  id : String
deriving DecidableEq, Repr

/-- Python `name.replace('#', '')` for the one-character pattern: every
occurrence of the marker character is removed. -/
def py_strip_hash (s : String) : String :=
  ⟨s.data.filter (fun c => c ≠ '#')⟩

/-- Source lines 54-57: build the name-to-id dict from `list_of_channels()`
(whose result is modelled as the `channels` list of `(id, name)` pairs),
stripping every marker character from the name; later duplicate names
overwrite earlier ones as in a Python dict, hence the reversed search. -/
def lookup_channel (channels : List (String × String)) (name : String) : Option String :=
  ((channels.map (fun p => (py_strip_hash p.2, p.1))).reverse.find?
    (fun q => q.1 = name)).map (fun q => q.2)

/-- Source `Slack.map_channels_to_their_id` (lines 49-66): strip the marker
from each rule's channel name, fail on the first name absent from the
mapping, otherwise attach the resolved id. -/
def map_channels_to_their_id (channels : List (String × String)) :
    List Rule → Except String (List RuleWithId)
  | [] => Except.ok []
  | r :: rest =>
    match lookup_channel channels (py_strip_hash r.channel) with
    | none =>
      Except.error ("The channel " ++ py_strip_hash r.channel
        ++ " does not exist or it is not accessible.")
    | some cid =>
      match map_channels_to_their_id channels rest with
      | Except.error e => Except.error e
      | Except.ok rs => Except.ok (⟨py_strip_hash r.channel, r.days, cid⟩ :: rs)

/-- Orchestration inner loop (source lines 205-213): repeatedly invoke the
deleter with the shrinking pending set until it signals completion, sleeping
between passes (the sleep has no observable effect in the model).  The
source `while True` may not terminate for a fixed delete API; the model
bounds it with `fuel` and reports exhaustion as an error. -/
def delete_passes (delApi : String → DeleteResponse) :
    Nat → List String → Except String Unit
  | 0, _missing => Except.error "delete passes did not terminate within fuel"
  | fuel + 1, missing =>
    match delete_channel_messages delApi missing with
    | Except.error e => Except.error e
    | Except.ok none => Except.ok ()
    | Except.ok (some (missing2, _delay)) => delete_passes delApi fuel missing2

/-- Per-rule body of `delete_messages` (source lines 192-213): collect the
candidate set for the rule's channel, skip the channel when empty, otherwise
run deletion passes; the deleter iterates the set in its (arbitrary in
Python, canonical here) iteration order. -/
def run_rules (history : String → ℚ → HistoryResponse)
    (delApi : String → String → DeleteResponse) (now : ℚ) (fuel : Nat) :
    List RuleWithId → Except String Unit
  | [] => Except.ok ()
  | r :: rest =>
    match load_messages_from_channel (history r.id) r.id now (some r.days) none none with
    | Except.error e => Except.error e
    | Except.ok ts_messages =>
      if ts_messages = ∅ then run_rules history delApi now fuel rest
      else
        match delete_passes (delApi r.id) fuel (ts_messages.sort (fun a b => a ≤ b)) with
        | Except.error e => Except.error e
        | Except.ok _ => run_rules history delApi now fuel rest

/-- Source `Slack.delete_messages` (lines 166-213): resolve every rule's
channel id first; only then collect and delete per rule. -/
def delete_messages (channels : List (String × String))
    (history : String → ℚ → HistoryResponse)
    (delApi : String → String → DeleteResponse) (now : ℚ) (fuel : Nat)
    (rules : List Rule) : Except String Unit :=
  match map_channels_to_their_id channels rules with
  | Except.error e => Except.error e
  | Except.ok rs => run_rules history delApi now fuel rs

/-! Lemmas about the deleter loop. -/

theorem delete_loop_step (delApi : String → DeleteResponse) (a : String) (t : List String)
    (n : Nat) (h : triggers_rate_limit (delApi a) = false) :
    delete_loop delApi (a :: t) (a :: t) n = delete_loop delApi t t (n + 1) := by
  cases hok : (delApi a).ok with
  | true => simp [delete_loop, hok, List.erase_cons_head]
  | false =>
    have hkey : has_retry_after (delApi a).headers = false := by
      simp [triggers_rate_limit, hok] at h
      exact h
    simp [delete_loop, hok, hkey, List.erase_cons_head]

theorem delete_loop_skip (delApi : String → DeleteResponse) :
    ∀ (k : Nat) (l : List String), k ≤ l.length →
      (∀ i : Fin l.length, (i : Nat) < k → triggers_rate_limit (delApi (l.get i)) = false) →
      ∀ n, delete_loop delApi l l n = delete_loop delApi (l.drop k) (l.drop k) (n + k) := by
  intro k
  induction k with
  | zero => intro l _ _ n; simp
  | succ k ih =>
    intro l hk hpre n
    match l with
    | [] => simp at hk
    | a :: t =>
      have h0 : triggers_rate_limit (delApi a) = false :=
        hpre ⟨0, by simp⟩ (Nat.succ_pos k)
      rw [delete_loop_step delApi a t n h0]
      have ht : k ≤ t.length := Nat.le_of_succ_le_succ hk
      have hpre2 : ∀ i : Fin t.length, (i : Nat) < k →
          triggers_rate_limit (delApi (t.get i)) = false := by
        intro i hi
        have := hpre ⟨(i : Nat) + 1, by simp [Nat.succ_lt_succ i.isLt]⟩
          (Nat.succ_lt_succ hi)
        simpa using this
      rw [ih t ht hpre2 (n + 1)]
      simp [Nat.add_assoc, Nat.add_comm 1 k]

/-- C1: if the k-th attempted delete (in iteration order) fails with a
rate-limit signal whose wait parses to `W`, `delete_channel_messages` stops
immediately and returns the pair of the pending set and `W`, where the
pending set is exactly the k-th identifier together with all identifiers not
yet attempted, and no identifier attempted before the k-th (successfully
deleted or not) is in it. -/
theorem c1_rate_limit_stops_with_pending (delApi : String → DeleteResponse)
    (messages : List String) (hnd : messages.Nodup) (k : Fin messages.length)
    (hpre : ∀ i : Fin messages.length, (i : Nat) < (k : Nat) →
      triggers_rate_limit (delApi (messages.get i)) = false)
    (hok : (delApi (messages.get k)).ok = false)
    (hkey : has_retry_after (delApi (messages.get k)).headers = true)
    (W : Int)
    (hW : retry_after_value (delApi (messages.get k)).headers = Except.ok W) :
    delete_channel_messages delApi messages =
        Except.ok (some (messages.drop (k : Nat), W)) ∧
    (∀ x, x ∈ messages.drop (k : Nat) ↔
      x = messages.get k ∨ x ∈ messages.drop ((k : Nat) + 1)) ∧
    (∀ i : Fin messages.length, (i : Nat) < (k : Nat) →
      messages.get i ∉ messages.drop (k : Nat)) := by
  have hdrop : messages.drop (k : Nat) =
      messages.get k :: messages.drop ((k : Nat) + 1) := by
    rw [List.drop_eq_getElem_cons k.isLt]
    simp
  refine ⟨?_, ?_, ?_⟩
  · unfold delete_channel_messages
    rw [List.dedup_eq_self.mpr hnd]
    rw [delete_loop_skip delApi (k : Nat) messages (Nat.le_of_lt k.isLt) hpre 0]
    rw [hdrop]
    have hokE : (delApi messages[(k : Nat)]).ok = false := by simpa using hok
    have hkeyE : has_retry_after (delApi messages[(k : Nat)]).headers = true := by
      simpa using hkey
    have hWE : retry_after_value (delApi messages[(k : Nat)]).headers = Except.ok W := by
      simpa using hW
    simp [delete_loop, hokE, hkeyE, hWE]
  · intro x
    rw [hdrop, List.mem_cons]
  · intro i hi hmem
    have htake : messages.get i ∈ messages.take (k : Nat) := by
      have h1 : (messages.take (k : Nat))[(i : Nat)]? = messages[(i : Nat)]? :=
        List.getElem?_take_of_lt hi
      have h2 : messages[(i : Nat)]? = some (messages.get i) := by
        rw [List.getElem?_eq_getElem i.isLt]
        simp
      exact List.getElem?_mem (h1.trans h2)
    exact List.disjoint_take_drop hnd (le_refl _) htake hmem

/-- Witness for C1 at a concrete input: three identifiers, the second
triggers a rate limit with wait 5; the pending set is the second and third
identifiers. -/
theorem c1_rate_limit_stops_with_pending_witness :
    delete_channel_messages
      (fun ts => if ts = "2" then ⟨false, "ratelimited", [("Retry-After", "5")]⟩
        else ⟨true, "", []⟩)
      ["1", "2", "3"] = Except.ok (some (["2", "3"], 5)) := by
  exact (c1_rate_limit_stops_with_pending
    (fun ts => if ts = "2" then ⟨false, "ratelimited", [("Retry-After", "5")]⟩
      else ⟨true, "", []⟩)
    ["1", "2", "3"] (by decide) ⟨1, Nat.succ_lt_succ (Nat.succ_pos 1)⟩
    (by decide) (by decide) (by rfl) 5 (by rfl)).1

/-- C5 as stated is false: a present rate-limit header whose value is a
non-empty string that does not parse as an integer makes the source raise
`ValueError` from `int(...)` instead of returning the default wait of 2. -/
theorem c5_unparsable_value_raises_cex :
    delete_channel_messages
      (fun _ => ⟨false, "ratelimited", [("Retry-After", "abc")]⟩) ["1.0"]
      = Except.error "ValueError: invalid literal for int: abc" := by
  rfl

/-- C5 amended: if the first attempted delete fails with a rate-limit header
key present (either spelling) but the looked-up value missing or empty
(falsy), `delete_channel_messages` returns the pending set with the default
wait of 2 rather than failing; only an unparsable non-empty value raises. -/
theorem c5_missing_value_defaults_to_two (delApi : String → DeleteResponse)
    (a : String) (t : List String)
    (hok : (delApi a).ok = false)
    (hkey : has_retry_after (delApi a).headers = true)
    (hval : py_or_str (headers_get (delApi a).headers "Retry-After")
        (headers_get (delApi a).headers "retry-after") = none ∨
      py_or_str (headers_get (delApi a).headers "Retry-After")
        (headers_get (delApi a).headers "retry-after") = some "") :
    delete_channel_messages delApi (a :: t) = Except.ok (some ((a :: t).dedup, 2)) := by
  unfold delete_channel_messages
  rcases hval with h | h <;>
    simp [delete_loop, hok, hkey, retry_after_value, h]

/-- Witness for C5's amended claim at a concrete input: the rate-limit key
is present under the lowercase spelling with an empty value, and the wait
defaults to 2. -/
theorem c5_missing_value_defaults_to_two_witness :
    delete_channel_messages
      (fun _ => ⟨false, "ratelimited", [("retry-after", "")]⟩) ["1.0"]
      = Except.ok (some (["1.0"], 2)) :=
  c5_missing_value_defaults_to_two
    (fun _ => ⟨false, "ratelimited", [("retry-after", "")]⟩) "1.0" [] rfl rfl
    (Or.inr rfl)

/-- C6: a delete attempt that fails without a rate-limit signal does not
abort the pass: the identifier is removed from the pending set anyway and
the loop continues with the next identifier; a pass none of whose attempts
triggers a rate limit (successes and plain failures alike) ends with the
terminal `None` result, every identifier removed from pending. -/
theorem c6_plain_failure_is_skipped (delApi : String → DeleteResponse)
    (messages : List String) (hnd : messages.Nodup)
    (hnr : ∀ ts ∈ messages, triggers_rate_limit (delApi ts) = false) :
    delete_channel_messages delApi messages = Except.ok none ∧
    (∀ a t, messages = a :: t → (delApi a).ok = false →
      delete_channel_messages delApi messages = delete_loop delApi t t 1) := by
  have hded : messages.dedup = messages := List.dedup_eq_self.mpr hnd
  constructor
  · unfold delete_channel_messages
    rw [hded]
    rw [delete_loop_skip delApi messages.length messages (le_refl _)
      (fun i _ => hnr _ (messages.get_mem i.1 i.2)) 0]
    simp [delete_loop]
  · intro a t hm hok
    unfold delete_channel_messages
    rw [hded, hm]
    exact delete_loop_step delApi a t 0 (hnr a (by rw [hm]; simp))

/-- Witness for C6 at a concrete input: the middle delete fails with no
rate-limit header and the pass still ends with the terminal result. -/
theorem c6_plain_failure_is_skipped_witness :
    delete_channel_messages
      (fun ts => if ts = "b" then ⟨false, "cant_delete_message", []⟩ else ⟨true, "", []⟩)
      ["a", "b", "c"] = Except.ok none :=
  (c6_plain_failure_is_skipped
    (fun ts => if ts = "b" then ⟨false, "cant_delete_message", []⟩ else ⟨true, "", []⟩)
    ["a", "b", "c"] (by decide) (by decide)).1

/-! Lemmas and claims about the collector. -/

/-- C2: the collector stops paginating exactly at the first page whose
filtered identifiers are all already collected (contribute nothing new),
even with iterations remaining below the cap; when the page does contribute
new identifiers the loop never stops there but advances the window, so the
no-new-identifiers condition is the only non-cap way pagination ends. -/
theorem c2_stop_iff_no_new_ids (history : ℚ → HistoryResponse) (channel_id : String)
    (mt ms : Option String) (fuel : Nat) (q : ℚ) (acc : Finset String)
    (new_messages : List Msg)
    (hok : (history q).ok = true)
    (hfil : apply_subtype_filter ms (apply_type_filter mt (history q).messages)
      = Except.ok new_messages) :
    (page_ts new_messages ⊆ acc →
      load_loop history channel_id mt ms (fuel + 1) q acc = Except.ok acc) ∧
    (¬ page_ts new_messages ⊆ acc →
      load_loop history channel_id mt ms (fuel + 1) q acc =
        match next_cursor (page_ts new_messages) with
        | some q2 => load_loop history channel_id mt ms fuel q2 (acc ∪ page_ts new_messages)
        | none => Except.error "ValueError: could not convert string to float") := by
  constructor
  · intro hsub
    simp only [load_loop, hok]
    rw [hfil]
    simp [hsub]
  · intro hnsub
    have hcond : ¬ (page_ts new_messages = ∅ ∨ page_ts new_messages ⊆ acc) := by
      rintro (h | h)
      · exact hnsub (by simp [h])
      · exact hnsub h
    simp only [load_loop, hok]
    rw [hfil]
    simp [hcond]

/-- Witness for C2 at a concrete input: the single fetched page repeats an
already-collected identifier, so pagination stops with nine iterations
remaining and returns the accumulated set unchanged. -/
theorem c2_stop_iff_no_new_ids_witness :
    load_loop (fun _ => ⟨true, "", [⟨"5.0", "message", none⟩]⟩) "C" none none 10 0 {"5.0"}
      = Except.ok {"5.0"} :=
  (c2_stop_iff_no_new_ids (fun _ => ⟨true, "", [⟨"5.0", "message", none⟩]⟩) "C"
    none none 9 0 {"5.0"} [⟨"5.0", "message", none⟩] rfl rfl).1 (by decide)

theorem apply_type_filter_length (mt : Option String) (l : List Msg) :
    (apply_type_filter mt l).length ≤ l.length := by
  cases mt with
  | none => simp [apply_type_filter]
  | some t =>
    by_cases h : t = "" <;> simp [apply_type_filter, h, List.length_filter_le]

theorem subtype_filter_go_length (st : String) :
    ∀ l r, subtype_filter_go st l = Except.ok r → r.length ≤ l.length := by
  intro l
  induction l with
  | nil =>
    intro r h
    simp only [subtype_filter_go] at h
    cases h
    simp
  | cons m rest ih =>
    intro r h
    simp only [subtype_filter_go] at h
    cases hm : m.subtype with
    | none => rw [hm] at h; cases h
    | some s =>
      rw [hm] at h
      cases hrec : subtype_filter_go st rest with
      | error e => rw [hrec] at h; cases h
      | ok r0 =>
        rw [hrec] at h
        have hr0 := ih r0 hrec
        cases h
        by_cases hs : s = st <;> simp [hs] <;> omega

theorem apply_subtype_filter_length (ms : Option String) (l r : List Msg)
    (h : apply_subtype_filter ms l = Except.ok r) : r.length ≤ l.length := by
  cases ms with
  | none =>
    simp only [apply_subtype_filter] at h
    cases h
    exact le_refl _
  | some st =>
    by_cases hs : st = ""
    · simp only [apply_subtype_filter, hs, if_pos] at h
      cases h
      exact le_refl _
    · simp only [apply_subtype_filter, if_neg hs] at h
      exact subtype_filter_go_length st l r h

theorem page_ts_card_le (l : List Msg) : (page_ts l).card ≤ l.length := by
  have h := List.toFinset_card_le (l.map Msg.ts)
  simpa [page_ts] using h

theorem load_loop_card_le (history : ℚ → HistoryResponse) (channel_id : String)
    (mt ms : Option String)
    (h1000 : ∀ q, (history q).messages.length ≤ 1000) :
    ∀ (fuel : Nat) (q : ℚ) (acc r : Finset String),
      load_loop history channel_id mt ms fuel q acc = Except.ok r →
      r.card ≤ acc.card + fuel * 1000 := by
  intro fuel
  induction fuel with
  | zero =>
    intro q acc r h
    simp only [load_loop] at h
    cases h
    simp
  | succ fuel ih =>
    intro q acc r h
    simp only [load_loop] at h
    cases hok : (history q).ok with
    | false => rw [hok] at h; simp at h
    | true =>
      rw [hok] at h
      simp only [if_pos] at h
      cases hfil : apply_subtype_filter ms (apply_type_filter mt (history q).messages) with
      | error e => rw [hfil] at h; simp at h
      | ok msgs =>
        rw [hfil] at h
        dsimp only at h
        by_cases hcond : (page_ts msgs = ∅ ∨ page_ts msgs ⊆ acc)
        · rw [if_pos hcond] at h
          cases h
          have : acc.card ≤ acc.card + (fuel + 1) * 1000 := Nat.le_add_right _ _
          exact this
        · rw [if_neg hcond] at h
          cases hq : next_cursor (page_ts msgs) with
          | none => rw [hq] at h; cases h
          | some q2 =>
            rw [hq] at h
            have hr := ih q2 (acc ∪ page_ts msgs) r h
            have h1 : (page_ts msgs).card ≤ msgs.length := page_ts_card_le msgs
            have h2 : msgs.length ≤ (apply_type_filter mt (history q).messages).length :=
              apply_subtype_filter_length ms _ msgs hfil
            have h3 := apply_type_filter_length mt (history q).messages
            have h4 := h1000 q
            have hcard : (acc ∪ page_ts msgs).card ≤ acc.card + 1000 := by
              have hu := Finset.card_union_le acc (page_ts msgs)
              omega
            calc r.card ≤ (acc ∪ page_ts msgs).card + fuel * 1000 := hr
              _ ≤ acc.card + 1000 + fuel * 1000 := by omega
              _ = acc.card + (fuel + 1) * 1000 := by ring

/-- C3: the pagination loop runs at most 10 iterations, so whenever every
history page holds at most 1000 messages (the requested page size) a
successful collection returns at most 10000 identifiers; and exhausting the
iteration cap is not an error: the loop then returns the accumulated set
silently. -/
theorem c3_cap_bounds_result (history : ℚ → HistoryResponse) (channel_id : String)
    (now : ℚ) (min_days_old : Option ℤ) (mt ms : Option String)
    (h1000 : ∀ q, (history q).messages.length ≤ 1000) :
    (∀ r, load_messages_from_channel history channel_id now min_days_old mt ms
        = Except.ok r → r.card ≤ 10000) ∧
    (∀ (q : ℚ) (acc : Finset String),
      load_loop history channel_id mt ms 0 q acc = Except.ok acc) := by
  constructor
  · intro r h
    unfold load_messages_from_channel at h
    have := load_loop_card_le history channel_id mt ms h1000 10 _ ∅ r h
    simpa using this
  · intro q acc
    rfl

/-- Witness for C3 at a concrete input: a history function whose pages are
empty satisfies the page-size bound, and the collected set of size 0 is
within the cap. -/
theorem c3_cap_bounds_result_witness :
    load_messages_from_channel (fun _ => ⟨true, "", []⟩) "C" 0 (some 0) none none
      = Except.ok ∅ ∧ (∅ : Finset String).card ≤ 10000 := by
  constructor
  · rfl
  · exact (c3_cap_bounds_result (fun _ => ⟨true, "", []⟩) "C" 0 (some 0) none none
      (fun q => by simp)).1 ∅ (by rfl)

/-- C4: an explicit age of zero days is honored, not defaulted: the collector
then paginates from a cutoff of `now` (now minus zero days), which differs
from the cutoff used for an unset age (now minus the 15-day default). -/
theorem c4_zero_days_honored (history : ℚ → HistoryResponse) (channel_id : String)
    (now : ℚ) (mt ms : Option String) :
    load_messages_from_channel history channel_id now (some 0) mt ms
      = load_loop history channel_id mt ms 10 now ∅ ∧
    timestamp_x_days_ago (effective_min_days_old (some 0)) none now = now ∧
    timestamp_x_days_ago (effective_min_days_old none) none now = now - 15 * 86400 ∧
    timestamp_x_days_ago (effective_min_days_old (some 0)) none now ≠
      timestamp_x_days_ago (effective_min_days_old none) none now := by
  refine ⟨?_, ?_, ?_, ?_⟩
  · unfold load_messages_from_channel
    norm_num [timestamp_x_days_ago, effective_min_days_old]
  · norm_num [timestamp_x_days_ago, effective_min_days_old]
  · norm_num [timestamp_x_days_ago, effective_min_days_old, default_min_days_old]
  · norm_num [timestamp_x_days_ago, effective_min_days_old, default_min_days_old]
    intro h
    have h2 : (0 : ℚ) = 15 * 86400 := by linarith
    norm_num at h2

/-- C9: an unset age (`min_days_old = None`) is substituted by the default
of 15 days, so the cutoff becomes now minus 15 days. -/
theorem c9_unset_age_defaults_to_fifteen (history : ℚ → HistoryResponse)
    (channel_id : String) (now : ℚ) (mt ms : Option String) :
    effective_min_days_old none = 15 ∧
    load_messages_from_channel history channel_id now none mt ms
      = load_loop history channel_id mt ms 10 (now - 15 * 86400) ∅ := by
  constructor
  · rfl
  · unfold load_messages_from_channel
    norm_num [timestamp_x_days_ago, effective_min_days_old, default_min_days_old]

/-- C7: any history response with `ok = false` reached by the pagination
loop makes the collector fail immediately, raising an error carrying the
channel id and the remote error text; no retry happens and no partial set is
returned. -/
theorem c7_history_failure_raises (history : ℚ → HistoryResponse) (channel_id : String)
    (mt ms : Option String) (fuel : Nat) (q : ℚ) (acc : Finset String)
    (hok : (history q).ok = false) :
    load_loop history channel_id mt ms (fuel + 1) q acc =
      Except.error ("Error loading messages from channel " ++ channel_id ++ ": "
        ++ (history q).error) := by
  simp [load_loop, hok]

/-- Witness for C7 at a concrete input: a failing first page raises with the
channel id and the remote error text in the message. -/
theorem c7_history_failure_raises_witness :
    load_loop (fun _ => ⟨false, "channel_not_found", []⟩) "C1" none none 10 0 ∅
      = Except.error "Error loading messages from channel C1: channel_not_found" :=
  (c7_history_failure_raises (fun _ => ⟨false, "channel_not_found", []⟩) "C1"
    none none 9 0 ∅ rfl).trans (by rfl)

theorem subtype_filter_go_error (st : String) :
    ∀ l : List Msg, (∃ m ∈ l, m.subtype = none) →
      subtype_filter_go st l = Except.error "KeyError: subtype" := by
  intro l
  induction l with
  | nil =>
    rintro ⟨m, hm, _⟩
    cases hm
  | cons a rest ih =>
    rintro ⟨m, hm, hnone⟩
    cases ha : a.subtype with
    | none => simp [subtype_filter_go, ha]
    | some s =>
      have hmrest : m ∈ rest := by
        cases hm with
        | head =>
          rw [ha] at hnone
          simp at hnone
        | tail _ h => exact h
      have hrec := ih ⟨m, hmrest, hnone⟩
      simp [subtype_filter_go, ha, hrec]

/-- C10: when a subtype filter is requested and some message of a fetched
page that survives the type filter lacks the `subtype` attribute, the
collector's subtype filter hits the missing key unguarded and the whole
operation fails with a `KeyError` — a failure mode beyond the specified
`ok = false` case. -/
theorem c10_missing_subtype_keyerror (history : ℚ → HistoryResponse)
    (channel_id : String) (mt : Option String) (st : String) (hst : st ≠ "")
    (fuel : Nat) (q : ℚ) (acc : Finset String) (m : Msg)
    (hok : (history q).ok = true)
    (hm : m ∈ apply_type_filter mt (history q).messages)
    (hnone : m.subtype = none) :
    load_loop history channel_id mt (some st) (fuel + 1) q acc
      = Except.error "KeyError: subtype" := by
  have hfil : apply_subtype_filter (some st) (apply_type_filter mt (history q).messages)
      = Except.error "KeyError: subtype" := by
    simp only [apply_subtype_filter, if_neg hst]
    exact subtype_filter_go_error st _ ⟨m, hm, hnone⟩
  simp [load_loop, hok, hfil]

/-- Witness for C10 at a concrete input: a page with one message lacking a
subtype, under a requested subtype filter, makes the collector fail with the
`KeyError`. -/
theorem c10_missing_subtype_keyerror_witness :
    load_loop (fun _ => ⟨true, "", [⟨"1.0", "message", none⟩]⟩) "C" none
      (some "bot_message") 10 0 ∅ = Except.error "KeyError: subtype" :=
  c10_missing_subtype_keyerror (fun _ => ⟨true, "", [⟨"1.0", "message", none⟩]⟩)
    "C" none "bot_message" (by decide) 9 0 ∅ ⟨"1.0", "message", none⟩ rfl (by decide) rfl

/-- C8: a rule whose (marker-stripped) channel name is absent from the
resolved channel list makes channel resolution fail, and `delete_messages`
then returns that same resolution error whatever the history and delete
APIs would answer — resolution of all rules runs before any collection or
deletion, so the run aborts with no delete call issued. -/
theorem c8_unresolvable_channel_aborts (channels : List (String × String))
    (rules : List Rule) (r : Rule) (hr : r ∈ rules)
    (hmiss : lookup_channel channels (py_strip_hash r.channel) = none) :
    ∃ e, map_channels_to_their_id channels rules = Except.error e ∧
      ∀ (history : String → ℚ → HistoryResponse)
        (delApi : String → String → DeleteResponse) (now : ℚ) (fuel : Nat),
        delete_messages channels history delApi now fuel rules = Except.error e := by
  induction rules with
  | nil => cases hr
  | cons a rest ih =>
    cases hla : lookup_channel channels (py_strip_hash a.channel) with
    | none =>
      refine ⟨"The channel " ++ py_strip_hash a.channel
        ++ " does not exist or it is not accessible.", ?_, ?_⟩
      · simp [map_channels_to_their_id, hla]
      · intro history delApi now fuel
        simp [delete_messages, map_channels_to_their_id, hla]
    | some cid =>
      have hrrest : r ∈ rest := by
        cases hr with
        | head =>
          rw [hla] at hmiss
          cases hmiss
        | tail _ h => exact h
      obtain ⟨e, h1, h2⟩ := ih hrrest
      refine ⟨e, ?_, ?_⟩
      · simp [map_channels_to_their_id, hla, h1]
      · intro history delApi now fuel
        simp [delete_messages, map_channels_to_their_id, hla, h1]

/-- Witness for C8 at a concrete input: one rule naming a channel absent
from the channel list; resolution fails and the whole run returns the same
error for a delete API that would have succeeded. -/
theorem c8_unresolvable_channel_aborts_witness :
    map_channels_to_their_id [("C1", "general")] [⟨"#missing", 30⟩]
      = Except.error "The channel missing does not exist or it is not accessible." ∧
    delete_messages [("C1", "general")] (fun _ _ => ⟨true, "", []⟩)
      (fun _ _ => ⟨true, "", []⟩) 0 1 [⟨"#missing", 30⟩]
      = Except.error "The channel missing does not exist or it is not accessible." := by
  obtain ⟨e, h1, h2⟩ := c8_unresolvable_channel_aborts [("C1", "general")]
    [⟨"#missing", 30⟩] ⟨"#missing", 30⟩ (by decide) (by rfl)
  have h3 : map_channels_to_their_id [("C1", "general")] [⟨"#missing", 30⟩]
      = Except.error "The channel missing does not exist or it is not accessible." := by rfl
  rw [h1] at h3
  have he := Except.error.inj h3
  subst he
  exact ⟨h1, h2 (fun _ _ => ⟨true, "", []⟩) (fun _ _ => ⟨true, "", []⟩) 0 1⟩

end SlackUtils
